import Mathlib

/-!
Verification of the wavefront volumetric path-tracing scheduler
(`src/pbrt/gpu/media.cpp` and `src/pbrt/gpu/optix.cu`) against its
natural-language specification.

The embedding models pbrt `Float` values as rationals (exact arithmetic;
the spec's power-of-two rescaling claims concern exactness, which the
rational model captures), `SampledSpectrum` as a 4-component record of
rationals, and the GPU kernels as pure functions.  External collaborators
(the OptiX trace call, `Medium::SampleTmaj`'s free-flight distance
sampling, the light sampler) are supplied through explicit oracle data,
as the spec's §6 treats them as opaque collaborators.
-/

namespace PbrtGpu

/-- `SampledSpectrum`: four wavelength samples (pbrt `NSpectrumSamples = 4`),
modelled with exact rational components. -/
structure SampledSpectrum where
  c0 : ℚ
  c1 : ℚ
  c2 : ℚ
  c3 : ℚ
deriving DecidableEq, Repr

namespace SampledSpectrum

/-- Constant spectrum (pbrt `SampledSpectrum(Float c)`). -/
def const (q : ℚ) : SampledSpectrum := ⟨q, q, q, q⟩

/-- The zero spectrum, `SampledSpectrum(0.f)`. -/
def zero : SampledSpectrum := const 0

/-- The unit spectrum, `SampledSpectrum(1.f)`. -/
def one : SampledSpectrum := const 1

/-- Component-wise product, pbrt `SampledSpectrum::operator*`. -/
def mul (a b : SampledSpectrum) : SampledSpectrum :=
  ⟨a.c0 * b.c0, a.c1 * b.c1, a.c2 * b.c2, a.c3 * b.c3⟩

instance : Mul SampledSpectrum := ⟨mul⟩

/-- Component-wise sum, pbrt `SampledSpectrum::operator+`. -/
def add (a b : SampledSpectrum) : SampledSpectrum :=
  ⟨a.c0 + b.c0, a.c1 + b.c1, a.c2 + b.c2, a.c3 + b.c3⟩

instance : Add SampledSpectrum := ⟨add⟩

/-- Component-wise difference, pbrt `SampledSpectrum::operator-`. -/
def sub (a b : SampledSpectrum) : SampledSpectrum :=
  ⟨a.c0 - b.c0, a.c1 - b.c1, a.c2 - b.c2, a.c3 - b.c3⟩

instance : Sub SampledSpectrum := ⟨sub⟩

/-- Scaling by a scalar, pbrt `SampledSpectrum::operator*(Float)`. -/
def scale (a : SampledSpectrum) (q : ℚ) : SampledSpectrum :=
  ⟨a.c0 * q, a.c1 * q, a.c2 * q, a.c3 * q⟩

/-- Division by a scalar, pbrt `SampledSpectrum::operator/(Float)`:
each component divided by `q`. -/
def divScalar (a : SampledSpectrum) (q : ℚ) : SampledSpectrum :=
  ⟨a.c0 / q, a.c1 / q, a.c2 / q, a.c3 / q⟩

/-- `SampledSpectrum::Average()`. -/
def average (a : SampledSpectrum) : ℚ :=
  (a.c0 + a.c1 + a.c2 + a.c3) / 4

/-- `SampledSpectrum::MaxComponentValue()`. -/
def maxComponent (a : SampledSpectrum) : ℚ :=
  max (max a.c0 a.c1) (max a.c2 a.c3)

/-- `SampledSpectrum::operator bool()`: true iff some component is nonzero. -/
def nonzero (a : SampledSpectrum) : Bool :=
  a.c0 != 0 || a.c1 != 0 || a.c2 != 0 || a.c3 != 0

/-- `ClampZero`: component-wise `max 0`. -/
def clampZero (a : SampledSpectrum) : SampledSpectrum :=
  ⟨max 0 a.c0, max 0 a.c1, max 0 a.c2, max 0 a.c3⟩

@[ext] theorem ext {a b : SampledSpectrum} (h0 : a.c0 = b.c0) (h1 : a.c1 = b.c1)
    (h2 : a.c2 = b.c2) (h3 : a.c3 = b.c3) : a = b := by
  cases a; cases b; simp_all

theorem mul_def (a b : SampledSpectrum) :
    a * b = ⟨a.c0 * b.c0, a.c1 * b.c1, a.c2 * b.c2, a.c3 * b.c3⟩ := rfl

theorem add_def (a b : SampledSpectrum) :
    a + b = ⟨a.c0 + b.c0, a.c1 + b.c1, a.c2 + b.c2, a.c3 + b.c3⟩ := rfl

theorem sub_def (a b : SampledSpectrum) :
    a - b = ⟨a.c0 - b.c0, a.c1 - b.c1, a.c2 - b.c2, a.c3 - b.c3⟩ := rfl

theorem scale_one (a : SampledSpectrum) : a.scale 1 = a := by
  simp [scale]

theorem mul_one_right (a : SampledSpectrum) : a * one = a := by
  simp [mul_def, one, const]

theorem nonzero_false_iff (a : SampledSpectrum) :
    a.nonzero = false ↔ a = zero := by
  cases a with
  | mk c0 c1 c2 c3 =>
    simp [nonzero, zero, const, SampledSpectrum.mk.injEq, and_assoc]

theorem add_zero_right (a : SampledSpectrum) : a + zero = a := by
  simp [add_def, zero, const]

end SampledSpectrum

/-- Henyey-Greenstein phase function, pbrt `HGPhaseFunction` (one parameter
`g`).  `MediumScatterWorkItem` stores one by value. -/
structure HGPhaseFunction where
  g : ℚ
deriving DecidableEq, Repr

/-- Phase-function handle (`PhaseFunctionHandle`, a tagged pointer).
`other` stands for any dynamic type other than `HGPhaseFunction`; it makes
the cast-failure branch of `CastOrNullptr` representable. -/
inductive PhaseHandle where
  | hg (g : ℚ)
  | other
deriving DecidableEq, Repr

/-- `TaggedPointer::CastOrNullptr<HGPhaseFunction>()`: a valid pointer when
the handle's dynamic type is `HGPhaseFunction`, null otherwise. -/
def PhaseHandle.castOrNullptrHG : PhaseHandle → Option HGPhaseFunction
  | .hg g => some ⟨g⟩
  | .other => none

/-- Dereferencing the result of the cast (`*phase` at media.cpp:110) with no
null check: a null pointer is a fault, modelled as `Except.error`. -/
def PhaseHandle.derefHG (h : PhaseHandle) : Except Unit HGPhaseFunction :=
  match h.castOrNullptrHG with
  | some f => Except.ok f
  | none => Except.error ()

/-- `MediumInteraction` fields used by the samplers: the spectral
coefficients, the emission term `Le`, and the phase-function handle. -/
structure MediumInteraction where
  sigma_a : SampledSpectrum
  sigma_s : SampledSpectrum
  sigma_maj : SampledSpectrum
  emitted : SampledSpectrum
  phase : PhaseHandle
deriving DecidableEq, Repr

/-- `MediumInteraction::sigma_n()`: `ClampZero(sigma_maj - sigma_a - sigma_s)`. -/
def MediumInteraction.sigma_n (intr : MediumInteraction) : SampledSpectrum :=
  (intr.sigma_maj - intr.sigma_a - intr.sigma_s).clampZero

/-- One sampled collision event delivered by `Medium::SampleTmaj` to the
callback: the majorant transmittance `Tmaj` accumulated since the previous
event, the interaction data at the sampled point, and the uniform sample
`um = rng.Uniform<Float>()` the callback draws to classify the event. -/
structure MediumEvent where
  Tmaj : SampledSpectrum
  intr : MediumInteraction
  um : ℚ
deriving DecidableEq, Repr

/-- `SampleDiscrete({p0, p1, p2}, u)`: returns the first index whose
cumulative weight strictly exceeds `u * (p0 + p1 + p2)`, else the last. -/
def sampleDiscrete3 (p0 p1 p2 u : ℚ) : ℕ :=
  let up := u * (p0 + p1 + p2)
  if up < p0 then 0
  else if up < p0 + p1 then 1
  else 2

/-- The event classification drawn at media.cpp:83-91: probabilities
`pAbsorb = sigma_a[0]/sigma_maj[0]`, `pScatter = sigma_s[0]/sigma_maj[0]`,
`pNull = max(0, 1 - pAbsorb - pScatter)`, sampled with the event's uniform. -/
def collisionMode (ev : MediumEvent) : ℕ :=
  let pAbsorb := ev.intr.sigma_a.c0 / ev.intr.sigma_maj.c0
  let pScatter := ev.intr.sigma_s.c0 / ev.intr.sigma_maj.c0
  let pNull := max 0 (1 - pAbsorb - pScatter)
  sampleDiscrete3 pAbsorb pScatter pNull ev.um

/-- `MediumScatterWorkItem` (the spectral fields and the by-value phase
function the medium-sample kernel pushes at media.cpp:109-111). -/
structure MediumScatterWorkItem where
  beta : SampledSpectrum
  pdfUni : SampledSpectrum
  phase : HGPhaseFunction
deriving DecidableEq, Repr

/-- Running state of the medium-sample kernel's callback (media.cpp:36-49):
the three spectral accumulators, the emitted radiance `L`, the `scattered`
flag, and the medium-scatter push (if any). -/
structure MediumCBState where
  beta : SampledSpectrum
  pdfUni : SampledSpectrum
  pdfNEE : SampledSpectrum
  L : SampledSpectrum
  scattered : Bool
  scatterPush : Option MediumScatterWorkItem
deriving DecidableEq, Repr

/-- The overflow-rescale threshold `0x1p24f`. -/
def scaleBound : ℚ := 2 ^ 24

/-- The rescale factor `1.f / 0x1p24f` (exactly `2^-24`). -/
def invScaleBound : ℚ := 1 / 2 ^ 24

/-- The emission contribution added at media.cpp:78-80:
`beta * intr.Le * sigma_a / (intr.sigma_maj[0] * pdfUni.Average())`. -/
def emissionTerm (ev : MediumEvent) (s : MediumCBState) : SampledSpectrum :=
  ((s.beta * ev.intr.emitted) * ev.intr.sigma_a).divScalar
    (ev.intr.sigma_maj.c0 * s.pdfUni.average)

/-- The `SampleTmaj` callback body for a sampled interaction
(media.cpp:64-142).  Returns the updated state and the continue/stop flag
the callback hands back to `SampleTmaj`; the null-pointer dereference of
the phase-function cast in the scattering branch is an `Except.error`. -/
def mediumEventStep (depth maxDepth : ℕ) (ev : MediumEvent) (s : MediumCBState) :
    Except Unit (MediumCBState × Bool) :=
  let intr := ev.intr
  let Tmaj := ev.Tmaj
  -- Add emission, if present (media.cpp:78-80).
  let L' := if depth < maxDepth ∧ intr.emitted.nonzero = true
            then s.L + emissionTerm ev s else s.L
  let mode := collisionMode ev
  if mode = 0 then
    -- Absorption: zero the throughput and stop traversal (media.cpp:93-98).
    .ok ({ s with L := L', beta := SampledSpectrum.zero }, false)
  else if mode = 1 then
    -- Scattering (media.cpp:99-114).
    let beta' := s.beta * (Tmaj * intr.sigma_s)
    let pdfUni' := s.pdfUni * (Tmaj * intr.sigma_s)
    match intr.phase.derefHG with
    | .error e => .error e
    | .ok hg =>
        .ok ({ s with L := L', beta := beta', pdfUni := pdfUni',
                      scattered := true,
                      scatterPush := some ⟨beta', pdfUni', hg⟩ }, false)
  else
    -- Null scattering (media.cpp:115-141).
    let sigma_n := intr.sigma_n
    let beta' := s.beta * (Tmaj * sigma_n)
    let pdfUni' := s.pdfUni * (Tmaj * sigma_n)
    let pdfNEE' := s.pdfNEE * (Tmaj * intr.sigma_maj)
    if beta'.maxComponent > scaleBound ∨ pdfUni'.maxComponent > scaleBound ∨
        pdfNEE'.maxComponent > scaleBound then
      .ok ({ s with L := L', beta := beta'.scale invScaleBound,
                    pdfUni := pdfUni'.scale invScaleBound,
                    pdfNEE := pdfNEE'.scale invScaleBound }, true)
    else
      .ok ({ s with L := L', beta := beta', pdfUni := pdfUni',
                    pdfNEE := pdfNEE' }, true)

/-- The callback body when no interaction was sampled before the segment end
(media.cpp:52-62): multiply `beta` and `pdfUni` by the remaining majorant
transmittance and stop. -/
def mediumNoIntrStep (TmajEnd : SampledSpectrum) (s : MediumCBState) : MediumCBState :=
  { s with beta := s.beta * TmajEnd, pdfUni := s.pdfUni * TmajEnd }

/-- Modelled from the spec: `Medium::SampleTmaj` (declared in
`pbrt/media.h`, not part of the two source files).  Per spec §4.2 it
repeatedly samples a free-flight distance from the majorant and hands each
candidate collision to the callback, continuing while the callback returns
true; when no further collision occurs before the segment end it delivers
one final no-interaction callback carrying the remaining majorant
transmittance.  The RNG-driven collision points and medium lookups are
supplied as the oracle list `events`; `TmajEnd` is the remaining majorant
transmittance for the final no-interaction callback. -/
def runSampleTmaj (depth maxDepth : ℕ) (events : List MediumEvent)
    (TmajEnd : SampledSpectrum) (s : MediumCBState) : Except Unit MediumCBState :=
  match events with
  | [] => .ok (mediumNoIntrStep TmajEnd s)
  | ev :: rest =>
    match mediumEventStep depth maxDepth ev s with
    | .error e => .error e
    | .ok (s', cont) =>
        if cont then runSampleTmaj depth maxDepth rest TmajEnd s' else .ok s'

/-- A 3-vector of rationals (ray origins and directions). -/
structure Vec3 where
  x : ℚ
  y : ℚ
  z : ℚ
deriving DecidableEq, Repr

/-- `MediumSampleWorkItem` (the fields the medium-sample kernel reads).
`tMax = none` models `ms.tMax == Infinity` (a miss); the boolean fields
model the truthiness of `ms.material` and `ms.areaLight`, and
`basicMaterial` whether the material passes the `BasicTextureEvaluator`
test selecting the basic material-eval queue (media.cpp:209-214). -/
structure MediumSampleWorkItem where
  rayO : Vec3
  rayD : Vec3
  tMax : Option ℚ
  beta : SampledSpectrum
  pdfUni : SampledSpectrum
  pdfNEE : SampledSpectrum
  hasMaterial : Bool
  hasAreaLight : Bool
  basicMaterial : Bool
deriving DecidableEq, Repr

/-- Which queues the medium-sample kernel pushed to after traversal
(media.cpp:161-226), with the spectral state each push carries.
Material-eval pushes carry only `beta` and `pdfUni` (media.cpp:220-223). -/
structure MediumRouteOut where
  escapedPush : Option (SampledSpectrum × SampledSpectrum × SampledSpectrum)
  transitionPush : Option (SampledSpectrum × SampledSpectrum × SampledSpectrum)
  hitAreaLightPush : Option (SampledSpectrum × SampledSpectrum × SampledSpectrum)
  basicEvalPush : Option (SampledSpectrum × SampledSpectrum)
  universalEvalPush : Option (SampledSpectrum × SampledSpectrum)
deriving DecidableEq, Repr

/-- The empty routing outcome (no queue pushes). -/
def MediumRouteOut.none : MediumRouteOut := ⟨Option.none, Option.none, Option.none, Option.none, Option.none⟩

/-- Post-traversal routing of a medium-sample work item (media.cpp:159-226):
nothing more if a scatter event was enqueued; otherwise route to escaped
(on a miss, when the escaped queue is configured), then medium-transition
(no material) or hit-area-light (emitter) and exactly one material-eval
queue. -/
def mediumSampleRoute (item : MediumSampleWorkItem) (escapedConfigured : Bool)
    (s : MediumCBState) : MediumRouteOut :=
  if s.scattered then MediumRouteOut.none
  else
    let esc := if item.tMax.isNone && escapedConfigured
               then some (s.beta, s.pdfUni, s.pdfNEE) else Option.none
    if !item.hasMaterial then
      { MediumRouteOut.none with
        escapedPush := esc,
        transitionPush := some (s.beta, s.pdfUni, s.pdfNEE) }
    else
      let hal := if item.hasAreaLight
                 then some (s.beta, s.pdfUni, s.pdfNEE) else Option.none
      if item.basicMaterial then
        { MediumRouteOut.none with
          escapedPush := esc, hitAreaLightPush := hal,
          basicEvalPush := some (s.beta, s.pdfUni) }
      else
        { MediumRouteOut.none with
          escapedPush := esc, hitAreaLightPush := hal,
          universalEvalPush := some (s.beta, s.pdfUni) }

/-- The per-pixel radiance update at media.cpp:151-157: the accumulated `L`
is added to the owning pixel's radiance, guarded by `if (L)`. -/
def pixelAdd (pixelL L : SampledSpectrum) : SampledSpectrum :=
  if L.nonzero then pixelL + L else pixelL

/-- The whole medium-sample kernel body for one work item (media.cpp:26-226):
run the free-flight traversal, add any emitted radiance to the pixel, and
route the result.  Returns the final callback state, the pixel radiance
after the update, and the routing pushes. -/
def mediumSampleItemRun (depth maxDepth : ℕ) (item : MediumSampleWorkItem)
    (events : List MediumEvent) (TmajEnd : SampledSpectrum)
    (escapedConfigured : Bool) (pixelBefore : SampledSpectrum) :
    Except Unit (MediumCBState × SampledSpectrum × MediumRouteOut) :=
  let s0 : MediumCBState :=
    ⟨item.beta, item.pdfUni, item.pdfNEE, SampledSpectrum.zero, false, Option.none⟩
  match runSampleTmaj depth maxDepth events TmajEnd s0 with
  | .error e => .error e
  | .ok s =>
      .ok (s, pixelAdd pixelBefore s.L, mediumSampleRoute item escapedConfigured s)

/-- The classification-relevant fields of a `SurfaceInteraction` reaching
`ProcessClosestIntersection` (optix.cu:144-243): truthiness of
`intr.material` and `intr.areaLight`, and whether the material passes the
`BasicTextureEvaluator` test (optix.cu:224-228). -/
structure SurfaceHit where
  hasMaterial : Bool
  hasAreaLight : Bool
  basicMaterial : Bool
deriving DecidableEq, Repr

/-- Which queues `ProcessClosestIntersection` pushed to. -/
structure CHOut where
  mediumSamplePush : Bool
  transitionPush : Bool
  hitAreaLightPush : Bool
  basicEvalPush : Bool
  universalEvalPush : Bool
deriving DecidableEq, Repr

/-- The no-push outcome. -/
def CHOut.none : CHOut := ⟨false, false, false, false, false⟩

/-- `ProcessClosestIntersection` (optix.cu:144-243): shadow rays only fill
the context; a ray inside a medium goes to the medium-sample queue; a hit
with no material goes to the medium-transition queue (returning before the
area-light test); otherwise the area-light push happens iff the hit is an
emitter, and exactly one material-eval queue receives the hit. -/
def processClosestIntersection (rayMedium shadowRay : Bool) (hit : SurfaceHit) : CHOut :=
  if shadowRay then CHOut.none
  else if rayMedium then { CHOut.none with mediumSamplePush := true }
  else if !hit.hasMaterial then { CHOut.none with transitionPush := true }
  else
    { CHOut.none with
      hitAreaLightPush := hit.hasAreaLight,
      basicEvalPush := hit.basicMaterial,
      universalEvalPush := !hit.basicMaterial }

/-- Accumulator state of the transmittance shadow resolver
(`__raygen__shadow_Tr`, optix.cu:353-444). -/
structure ShadowState where
  Ld : SampledSpectrum
  pdfUni : SampledSpectrum
  pdfNEE : SampledSpectrum
deriving DecidableEq, Repr

/-- A collision event delivered to the shadow resolver's ratio-tracking
callback (optix.cu:400-426): majorant transmittance and interaction. -/
structure ShadowMediumEvent where
  Tmaj : SampledSpectrum
  intr : MediumInteraction
deriving DecidableEq, Repr

/-- The shadow resolver's `SampleTmaj` callback body for a sampled
interaction (optix.cu:405-425): every collision is treated as null
scattering; stop once `Ld` is exactly zero; rescale all three by `2^-24`
when any exceeds `2^24`. -/
def shadowMediumStep (ev : ShadowMediumEvent) (s : ShadowState) : ShadowState × Bool :=
  let sigma_n := ev.intr.sigma_n
  let Ld' := s.Ld * (ev.Tmaj * sigma_n)
  let pdfNEE' := s.pdfNEE * (ev.Tmaj * ev.intr.sigma_maj)
  let pdfUni' := s.pdfUni * (ev.Tmaj * sigma_n)
  if !Ld'.nonzero then (⟨Ld', pdfUni', pdfNEE'⟩, false)
  else if Ld'.maxComponent > scaleBound ∨ pdfNEE'.maxComponent > scaleBound ∨
      pdfUni'.maxComponent > scaleBound then
    (⟨Ld'.scale invScaleBound, pdfUni'.scale invScaleBound,
      pdfNEE'.scale invScaleBound⟩, true)
  else
    (⟨Ld', pdfUni', pdfNEE'⟩, true)

/-- Modelled from the spec / optix.cu:399-426: the shadow resolver's
ratio-tracking traversal.  The no-interaction callback returns false
without touching the accumulators (optix.cu:401-403), so the traversal is
a fold over the oracle event list that stops early when the callback
returns false. -/
def shadowMediumRun (events : List ShadowMediumEvent) (s : ShadowState) : ShadowState :=
  match events with
  | [] => s
  | ev :: rest =>
    match shadowMediumStep ev s with
    | (s', true) => shadowMediumRun rest s'
    | (s', false) => s'

/-- Oracle data for one iteration of the `__raygen__shadow_Tr` loop: the
trace outcome (`missed`, truthiness of `ctx.material`), whether the ray is
inside a medium, the medium events of this segment, and whether the spawned
continuation direction `ctx.SpawnRayTo(pLight).d` is exactly zero. -/
structure ShadowTraceIter where
  missed : Bool
  hitMaterial : Bool
  hasMedium : Bool
  events : List ShadowMediumEvent
  spawnDirZero : Bool
deriving DecidableEq, Repr

/-- One iteration of the `__raygen__shadow_Tr` loop (optix.cu:373-437).
Returns the updated accumulators and whether the loop stops (`break`). -/
def shadowTrStep (it : ShadowTraceIter) (s : ShadowState) : ShadowState × Bool :=
  if !it.missed && it.hitMaterial then
    -- Hit opaque surface: zero the contribution and stop (optix.cu:387-392).
    ({ s with Ld := SampledSpectrum.zero }, true)
  else
    let s' := if it.hasMedium then shadowMediumRun it.events s else s
    if it.missed || !s'.Ld.nonzero then (s', true)
    else if it.spawnDirZero then (s', true)
    else (s', false)

/-- The `__raygen__shadow_Tr` loop over an oracle list of trace iterations;
`none` when the oracle is exhausted before the loop stops. -/
def shadowTrRun (iters : List ShadowTraceIter) (s : ShadowState) : Option ShadowState :=
  match iters with
  | [] => Option.none
  | it :: rest =>
    match shadowTrStep it s with
    | (s', true) => some s'
    | (s', false) => shadowTrRun rest s'

/-- The value finally written to `shadowRayQueue->Ld[index]`
(optix.cu:439-443): the accumulated `Ld` divided by
`(pdfUni + pdfNEE).Average()`. -/
def shadowTrWritten (iters : List ShadowTraceIter) (s : ShadowState) :
    Option SampledSpectrum :=
  (shadowTrRun iters s).map fun sf => sf.Ld.divScalar ((sf.pdfUni + sf.pdfNEE).average)

/-- `ShadowEpsilon` (pbrt constant `0.0001f`, modelled exactly). -/
def shadowEpsilon : ℚ := 1 / 10000

/-- The input fields of a `MediumScatterWorkItem` read by the scatter-stage
kernel (media.cpp:232-310). -/
structure MediumScatterInput where
  beta : SampledSpectrum
  pdfUni : SampledSpectrum
  etaScale : ℚ
  phase : HGPhaseFunction
deriving DecidableEq, Repr

/-- Oracle data for the direct-lighting step (media.cpp:239-258): the
outcome of `lightSampler.Sample` and `light.SampleLi`, and the evaluations
`phase.p(wo, wi)` and `phase.PDF(wo, wi)` at the sampled direction. -/
structure LightSampleOracle where
  hasLight : Bool
  selectionPdf : ℚ
  lsValid : Bool
  lsL : SampledSpectrum
  lsPdf : ℚ
  isDeltaLight : Bool
  phaseP : ℚ
  phasePdf : ℚ
deriving DecidableEq, Repr

/-- The fields of the pushed `ShadowRayWorkItem` (media.cpp:266-268). -/
structure ShadowRayWorkItem where
  tMax : ℚ
  Ld : SampledSpectrum
  pdfUni : SampledSpectrum
  pdfNEE : SampledSpectrum
deriving DecidableEq, Repr

/-- The direct-lighting half of the scatter-stage kernel
(media.cpp:238-277): when a light was selected and its sample is valid with
nonzero radiance, push a shadow ray with `Ld = beta * phase.p * ls.L`,
`pdfUni' = pdfUni * phasePDF` (zero for delta lights),
`pdfNEE' = pdfUni * (ls.pdf * selectionPdf)`, and `tMax = 1 - ShadowEpsilon`. -/
def mediumScatterDirect (ms : MediumScatterInput) (lo : LightSampleOracle) :
    Option ShadowRayWorkItem :=
  if !lo.hasLight then Option.none
  else if !(lo.lsValid && lo.lsL.nonzero) then Option.none
  else
    let beta := ms.beta.scale lo.phaseP
    let lightPDF := lo.lsPdf * lo.selectionPdf
    let phasePDF := if lo.isDeltaLight then 0 else lo.phasePdf
    let pdfUni := ms.pdfUni.scale phasePDF
    let pdfNEE := ms.pdfUni.scale lightPDF
    some ⟨1 - shadowEpsilon, beta * lo.lsL, pdfUni, pdfNEE⟩

/-- Oracle data for `phase.Sample_p(wo, raySamples.indirect.u)`
(media.cpp:280-283). -/
structure PhaseSampleOracle where
  valid : Bool
  p : ℚ
  pdf : ℚ
deriving DecidableEq, Repr

/-- The indirect continuation ray pushed by `PushIndirect`
(media.cpp:302-310): spectral state, bounce flags, and the parity
`(depth + 1) & 1` of the destination ray queue. -/
structure IndirectRayPush where
  beta : SampledSpectrum
  pdfUni : SampledSpectrum
  pdfNEE : SampledSpectrum
  isSpecularBounce : Bool
  anyNonSpecularBounces : Bool
  queueParity : ℕ
deriving DecidableEq, Repr

/-- The indirect-continuation half of the scatter-stage kernel
(media.cpp:279-310): update the spectral state by the phase sample, apply
Russian roulette when `depth > 1` and the rescaled throughput's max
component is below 1 (dropping the path when the precomputed roulette
sample falls below `q`), and push the surviving ray into the next depth's
queue with the specular flag cleared and the non-specular flag set. -/
def mediumScatterIndirect (depth : ℕ) (ms : MediumScatterInput)
    (ps : PhaseSampleOracle) (rrSample : ℚ) : Option IndirectRayPush :=
  if !ps.valid then Option.none
  else
    let beta := ms.beta.scale ps.p
    let pdfUni := ms.pdfUni.scale ps.pdf
    let pdfNEE := ms.pdfUni
    let rrBeta := (beta.scale ms.etaScale).divScalar pdfUni.average
    if rrBeta.maxComponent < 1 ∧ depth > 1 then
      let q := max 0 (1 - rrBeta.maxComponent)
      if rrSample < q then Option.none
      else some ⟨beta, pdfUni.scale (1 - q), pdfNEE.scale (1 - q),
                 false, true, (depth + 1) % 2⟩
    else some ⟨beta, pdfUni, pdfNEE, false, true, (depth + 1) % 2⟩

/-- The RNG seed of the medium free-flight sampler (media.cpp:40):
`RNG rng(Hash(tMax), Hash(ray.d))`.  The hash functions are parameters
(`Hash` lives outside the two source files); the seed depends on the work
item only through `tMax` and `ray.d`. -/
def mediumRngSeed (hashT : Option ℚ → ℕ) (hashV : Vec3 → ℕ)
    (item : MediumSampleWorkItem) : ℕ × ℕ :=
  (hashT item.tMax, hashV item.rayD)

/-- The ray fields of a `ShadowRayWorkItem` the transmittance shadow
resolver seeds its RNG from (optix.cu:368-371). -/
structure ShadowTrInputRay where
  rayO : Vec3
  rayD : Vec3
deriving DecidableEq, Repr

/-- The RNG seed of the transmittance shadow resolver (optix.cu:371):
`RNG rng(Hash(ray.o), Hash(ray.d))`. -/
def shadowRngSeed (hashV : Vec3 → ℕ) (sr : ShadowTrInputRay) : ℕ × ℕ :=
  (hashV sr.rayO, hashV sr.rayD)

/-- Following the spec's words (§4.2, null-collision bullet): multiply
throughput and `pdfUni` by `Tmaj * sigma_n`, multiply `pdfNEE` by
`Tmaj * sigma_maj`, and rescale all three by `2^-24` when any max spectral
component exceeds `2^24`.  Stated for comparison with the source's null
branch in `mediumEventStep`. -/
def specNullCollision (Tmaj sn smaj beta pdfUni pdfNEE : SampledSpectrum) :
    SampledSpectrum × SampledSpectrum × SampledSpectrum :=
  let beta' := beta * (Tmaj * sn)
  let pdfUni' := pdfUni * (Tmaj * sn)
  let pdfNEE' := pdfNEE * (Tmaj * smaj)
  if beta'.maxComponent > scaleBound ∨ pdfUni'.maxComponent > scaleBound ∨
      pdfNEE'.maxComponent > scaleBound then
    (beta'.scale invScaleBound, pdfUni'.scale invScaleBound, pdfNEE'.scale invScaleBound)
  else (beta', pdfUni', pdfNEE')

theorem average_scale (p : SampledSpectrum) (k : ℚ) :
    (p.scale k).average = p.average * k := by
  simp only [SampledSpectrum.average, SampledSpectrum.scale]
  ring

/-- Rescaling numerator spectrum and denominator spectrum by the same
nonzero factor leaves the spectrum-over-average quotient unchanged. -/
theorem scale_divScalar_average (b p : SampledSpectrum) (k : ℚ) (hk : k ≠ 0) :
    (b.scale k).divScalar ((p.scale k).average) = b.divScalar p.average := by
  rw [average_scale]
  exact SampledSpectrum.ext (mul_div_mul_right _ _ hk) (mul_div_mul_right _ _ hk)
    (mul_div_mul_right _ _ hk) (mul_div_mul_right _ _ hk)

theorem invScaleBound_ne_zero : invScaleBound ≠ 0 := by
  norm_num [invScaleBound]

/-- C1: on a null-collision event the callback multiplies `beta` and
`pdfUni` by `Tmaj * sigma_n` and `pdfNEE` by `Tmaj * sigma_maj`, rescales
all three by `2^-24` exactly when some max spectral component exceeds
`2^24`, and continues sampling; the rescale preserves the quotient
`beta / pdfUni.Average()` exactly. -/
theorem null_collision_event_update (depth maxDepth : ℕ) (ev : MediumEvent)
    (s : MediumCBState) (hmode : collisionMode ev = 2) :
    ∃ s', mediumEventStep depth maxDepth ev s = .ok (s', true) ∧
      (s'.beta, s'.pdfUni, s'.pdfNEE) =
        specNullCollision ev.Tmaj ev.intr.sigma_n ev.intr.sigma_maj
          s.beta s.pdfUni s.pdfNEE ∧
      s'.beta.divScalar s'.pdfUni.average =
        (s.beta * (ev.Tmaj * ev.intr.sigma_n)).divScalar
          ((s.pdfUni * (ev.Tmaj * ev.intr.sigma_n)).average) := by
  simp only [mediumEventStep, hmode]
  norm_num
  split
  case isTrue h =>
    refine ⟨_, rfl, ?_, scale_divScalar_average _ _ _ invScaleBound_ne_zero⟩
    simp only [specNullCollision]
    rw [if_pos h]
  case isFalse h =>
    refine ⟨_, rfl, ?_, rfl⟩
    simp only [specNullCollision]
    rw [if_neg h]

/-- Concrete instance of the C1 theorem: a null collision (zero absorption
and scattering against a unit majorant) with unit spectral state. -/
def c1Event : MediumEvent :=
  ⟨SampledSpectrum.one,
   ⟨SampledSpectrum.zero, SampledSpectrum.zero, SampledSpectrum.one,
    SampledSpectrum.zero, PhaseHandle.hg 0⟩, 1 / 2⟩

theorem c1Event_mode : collisionMode c1Event = 2 := by
  norm_num [collisionMode, sampleDiscrete3, c1Event, SampledSpectrum.zero,
    SampledSpectrum.one, SampledSpectrum.const]

/-- Unit-valued callback state used by the concrete witnesses. -/
def unitCBState : MediumCBState :=
  ⟨SampledSpectrum.one, SampledSpectrum.one, SampledSpectrum.one,
   SampledSpectrum.zero, false, Option.none⟩

/-- Witness for C1 at a concrete null-collision event. -/
theorem null_collision_event_update_witness :
    collisionMode c1Event = 2 ∧
    ∃ s', mediumEventStep 0 5 c1Event unitCBState = .ok (s', true) ∧
      (s'.beta, s'.pdfUni, s'.pdfNEE) =
        specNullCollision c1Event.Tmaj c1Event.intr.sigma_n c1Event.intr.sigma_maj
          unitCBState.beta unitCBState.pdfUni unitCBState.pdfNEE ∧
      s'.beta.divScalar s'.pdfUni.average =
        (unitCBState.beta * (c1Event.Tmaj * c1Event.intr.sigma_n)).divScalar
          ((unitCBState.pdfUni * (c1Event.Tmaj * c1Event.intr.sigma_n)).average) :=
  ⟨c1Event_mode, null_collision_event_update 0 5 c1Event unitCBState c1Event_mode⟩

theorem one_nonzero : SampledSpectrum.one.nonzero = true := by
  simp [SampledSpectrum.nonzero, SampledSpectrum.one, SampledSpectrum.const]

/-- C5: below the maximum depth in an emitting medium, every outcome of the
event callback leaves `L` increased by exactly
`beta * Le * sigma_a / (sigma_maj[0] * pdfUni.Average())` (the increment is
computed before the outcome is drawn, so it does not depend on the drawn
mode), and the kernel's guarded pixel write adds the accumulated `L` to the
pixel exactly once. -/
theorem medium_emission_uniform (depth maxDepth : ℕ) (ev : MediumEvent)
    (s : MediumCBState) (hd : depth < maxDepth)
    (he : ev.intr.emitted.nonzero = true) :
    (∀ s' c, mediumEventStep depth maxDepth ev s = .ok (s', c) →
      s'.L = s.L + emissionTerm ev s) ∧
    (∀ pixelL Lacc : SampledSpectrum, pixelAdd pixelL Lacc = pixelL + Lacc) ∧
    (∀ (item : MediumSampleWorkItem) (events : List MediumEvent)
        (TmajEnd pixelBefore : SampledSpectrum) (esc : Bool)
        (s₁ : MediumCBState) (pix : SampledSpectrum) (out : MediumRouteOut),
      mediumSampleItemRun depth maxDepth item events TmajEnd esc pixelBefore =
        .ok (s₁, pix, out) → pix = pixelBefore + s₁.L) := by
  have hpix : ∀ pixelL Lacc : SampledSpectrum, pixelAdd pixelL Lacc = pixelL + Lacc := by
    intro pixelL Lacc
    by_cases h : Lacc.nonzero = true
    · simp [pixelAdd, h]
    · have hz := (SampledSpectrum.nonzero_false_iff Lacc).1 (by simpa using h)
      simp [pixelAdd, h, hz, SampledSpectrum.add_zero_right]
  refine ⟨?_, hpix, ?_⟩
  · intro s' c h
    simp only [mediumEventStep, if_pos (And.intro hd he)] at h
    split at h
    · cases h; rfl
    · split at h
      · split at h
        · exact absurd h (by simp)
        · cases h; rfl
      · split at h
        · cases h; rfl
        · cases h; rfl
  · intro item events TmajEnd pixelBefore esc s₁ pix out h
    simp only [mediumSampleItemRun] at h
    split at h
    · exact absurd h (by simp)
    · simp only [Except.ok.injEq, Prod.mk.injEq] at h
      obtain ⟨h1, h2, h3⟩ := h
      rw [← h1, ← h2, hpix]

/-- Concrete emitting absorption event used by the C5 witness. -/
def c5Event : MediumEvent :=
  ⟨SampledSpectrum.one,
   ⟨SampledSpectrum.one, SampledSpectrum.zero, SampledSpectrum.one,
    SampledSpectrum.one, PhaseHandle.hg 0⟩, 0⟩

theorem c5Event_mode : collisionMode c5Event = 0 := by
  norm_num [collisionMode, sampleDiscrete3, c5Event, SampledSpectrum.zero,
    SampledSpectrum.one, SampledSpectrum.const]

theorem c5Event_emitted_nonzero : c5Event.intr.emitted.nonzero = true := one_nonzero

/-- The callback state after the C5 witness event (absorption with emission). -/
def c5OutState : MediumCBState :=
  { unitCBState with
    L := unitCBState.L + emissionTerm c5Event unitCBState,
    beta := SampledSpectrum.zero }

theorem c5_step_eval :
    mediumEventStep 0 5 c5Event unitCBState = .ok (c5OutState, false) := by
  simp [mediumEventStep, c5Event_mode, c5Event_emitted_nonzero, c5OutState]

/-- Witness for C5 at a concrete emitting absorption event. -/
theorem medium_emission_uniform_witness :
    c5OutState.L = unitCBState.L + emissionTerm c5Event unitCBState :=
  (medium_emission_uniform 0 5 c5Event unitCBState (by norm_num)
    c5Event_emitted_nonzero).1 c5OutState false c5_step_eval

/-- C9: at a sampled scattering event the phase-function handle is cast to
`HGPhaseFunction` and dereferenced with no null check: when the handle's
dynamic type is Henyey-Greenstein the push succeeds and carries the
dereferenced phase function by value; for any other phase-function kind the
null-pointer dereference branch is reached. -/
theorem scatter_phase_cast (depth maxDepth : ℕ) (ev : MediumEvent)
    (s : MediumCBState) (hmode : collisionMode ev = 1) :
    (∀ g : ℚ, ev.intr.phase = .hg g →
      mediumEventStep depth maxDepth ev s =
        .ok ({ s with
               L := if depth < maxDepth ∧ ev.intr.emitted.nonzero = true
                    then s.L + emissionTerm ev s else s.L,
               beta := s.beta * (ev.Tmaj * ev.intr.sigma_s),
               pdfUni := s.pdfUni * (ev.Tmaj * ev.intr.sigma_s),
               scattered := true,
               scatterPush := some ⟨s.beta * (ev.Tmaj * ev.intr.sigma_s),
                                    s.pdfUni * (ev.Tmaj * ev.intr.sigma_s),
                                    ⟨g⟩⟩ }, false)) ∧
    (ev.intr.phase = .other →
      mediumEventStep depth maxDepth ev s = .error ()) := by
  constructor
  · intro g hph
    simp [mediumEventStep, hmode, PhaseHandle.derefHG,
      PhaseHandle.castOrNullptrHG, hph]
  · intro hph
    simp [mediumEventStep, hmode, PhaseHandle.derefHG,
      PhaseHandle.castOrNullptrHG, hph]

/-- Concrete scattering event with a Henyey-Greenstein handle for the C9
witness. -/
def c9Event : MediumEvent :=
  ⟨SampledSpectrum.one,
   ⟨SampledSpectrum.zero, SampledSpectrum.one, SampledSpectrum.one,
    SampledSpectrum.zero, PhaseHandle.hg (1 / 4)⟩, 0⟩

theorem c9Event_mode : collisionMode c9Event = 1 := by
  norm_num [collisionMode, sampleDiscrete3, c9Event, SampledSpectrum.zero,
    SampledSpectrum.one, SampledSpectrum.const]

/-- Witness for C9 at a concrete Henyey-Greenstein scattering event. -/
theorem scatter_phase_cast_witness :
    mediumEventStep 0 5 c9Event unitCBState =
      .ok ({ unitCBState with
             L := if 0 < 5 ∧ c9Event.intr.emitted.nonzero = true
                  then unitCBState.L + emissionTerm c9Event unitCBState
                  else unitCBState.L,
             beta := unitCBState.beta * (c9Event.Tmaj * c9Event.intr.sigma_s),
             pdfUni := unitCBState.pdfUni * (c9Event.Tmaj * c9Event.intr.sigma_s),
             scattered := true,
             scatterPush := some ⟨unitCBState.beta * (c9Event.Tmaj * c9Event.intr.sigma_s),
                                  unitCBState.pdfUni * (c9Event.Tmaj * c9Event.intr.sigma_s),
                                  ⟨1 / 4⟩⟩ }, false) :=
  (scatter_phase_cast 0 5 c9Event unitCBState c9Event_mode).1 (1 / 4) rfl

theorem zero_nonzero : SampledSpectrum.zero.nonzero = false := by
  simp [SampledSpectrum.nonzero, SampledSpectrum.zero, SampledSpectrum.const]

/-- Concrete absorption event (no emission) used for C3. -/
def c3AbsorbEvent : MediumEvent :=
  ⟨SampledSpectrum.one,
   ⟨SampledSpectrum.one, SampledSpectrum.zero, SampledSpectrum.one,
    SampledSpectrum.zero, PhaseHandle.hg 0⟩, 0⟩

theorem c3AbsorbEvent_mode : collisionMode c3AbsorbEvent = 0 := by
  norm_num [collisionMode, sampleDiscrete3, c3AbsorbEvent, SampledSpectrum.zero,
    SampledSpectrum.one, SampledSpectrum.const]

/-- Concrete medium-sample work item for C3: finite segment, no material. -/
def c3Item : MediumSampleWorkItem :=
  ⟨⟨0, 0, 0⟩, ⟨0, 0, 1⟩, some 5, SampledSpectrum.one, SampledSpectrum.one,
   SampledSpectrum.one, false, false, false⟩

/-- Callback state after the C3 absorption (throughput zeroed). -/
def c3OutCB : MediumCBState :=
  ⟨SampledSpectrum.zero, SampledSpectrum.one, SampledSpectrum.one,
   SampledSpectrum.zero, false, Option.none⟩

/-- Routing outcome of the C3 run: the zero-throughput item goes to the
medium-transition queue. -/
def c3OutRoute : MediumRouteOut :=
  { MediumRouteOut.none with
    transitionPush := some (SampledSpectrum.zero, SampledSpectrum.one,
                            SampledSpectrum.one) }

/-- Counterexample to C3 as stated: a work item absorbed in the medium
(throughput set to the zero spectrum) is nevertheless pushed into the
medium-transition queue, carrying the zero throughput. -/
theorem absorbed_item_reenqueued_counterexample :
    mediumSampleItemRun 0 5 c3Item [c3AbsorbEvent] SampledSpectrum.one true
        SampledSpectrum.zero = .ok (c3OutCB, SampledSpectrum.zero, c3OutRoute) ∧
    c3OutCB.beta = SampledSpectrum.zero ∧
    c3OutRoute.transitionPush ≠ Option.none := by
  refine ⟨?_, rfl, by simp [c3OutRoute, MediumRouteOut.none]⟩
  simp only [mediumSampleItemRun, runSampleTmaj, mediumEventStep,
    c3AbsorbEvent_mode, c3Item]
  norm_num [c3AbsorbEvent, c3OutCB, c3OutRoute, mediumSampleRoute, pixelAdd,
    MediumRouteOut.none, SampledSpectrum.nonzero, SampledSpectrum.zero,
    SampledSpectrum.const]

/-- C3 amended: an absorption event zeroes the throughput and stops the
traversal without a medium-scatter push (the `scattered` flag and the
scatter push are untouched), but the zeroed result is still routed onward
exactly as an unscattered item: with no material it is re-enqueued to the
medium-transition queue, and on a miss with a configured escaped-ray queue
it is pushed there, carrying the (possibly zero) throughput. -/
theorem absorption_routes_onward (depth maxDepth : ℕ) (ev : MediumEvent)
    (s : MediumCBState) (hmode : collisionMode ev = 0) :
    mediumEventStep depth maxDepth ev s =
      .ok ({ s with
             L := if depth < maxDepth ∧ ev.intr.emitted.nonzero = true
                  then s.L + emissionTerm ev s else s.L,
             beta := SampledSpectrum.zero }, false) ∧
    (∀ (item : MediumSampleWorkItem) (esc : Bool) (s₁ : MediumCBState),
      s₁.scattered = false → item.hasMaterial = false →
      (mediumSampleRoute item esc s₁).transitionPush =
        some (s₁.beta, s₁.pdfUni, s₁.pdfNEE)) ∧
    (∀ (item : MediumSampleWorkItem) (s₁ : MediumCBState),
      s₁.scattered = false → item.tMax = Option.none →
      (mediumSampleRoute item true s₁).escapedPush =
        some (s₁.beta, s₁.pdfUni, s₁.pdfNEE)) := by
  refine ⟨by simp [mediumEventStep, hmode], ?_, ?_⟩
  · intro item esc s₁ hsc hmat
    simp [mediumSampleRoute, hsc, hmat]
  · intro item s₁ hsc hmax
    by_cases hmat : item.hasMaterial
    · by_cases hb : item.basicMaterial
      · simp [mediumSampleRoute, hsc, hmax, hmat, hb]
      · simp [mediumSampleRoute, hsc, hmax, hmat, hb]
    · simp [mediumSampleRoute, hsc, hmax, hmat]

/-- Witness for the amended C3 at the concrete absorbed item. -/
theorem absorption_routes_onward_witness :
    mediumEventStep 0 5 c3AbsorbEvent unitCBState =
      .ok ({ unitCBState with
             L := if 0 < 5 ∧ c3AbsorbEvent.intr.emitted.nonzero = true
                  then unitCBState.L + emissionTerm c3AbsorbEvent unitCBState
                  else unitCBState.L,
             beta := SampledSpectrum.zero }, false) ∧
    (mediumSampleRoute c3Item true c3OutCB).transitionPush =
      some (c3OutCB.beta, c3OutCB.pdfUni, c3OutCB.pdfNEE) :=
  ⟨(absorption_routes_onward 0 5 c3AbsorbEvent unitCBState c3AbsorbEvent_mode).1,
   (absorption_routes_onward 0 5 c3AbsorbEvent unitCBState c3AbsorbEvent_mode).2.1
     c3Item true c3OutCB rfl rfl⟩

theorem scale_eq_mul_const (a : SampledSpectrum) (q : ℚ) :
    a.scale q = a * SampledSpectrum.const q := by
  simp [SampledSpectrum.scale, SampledSpectrum.mul_def, SampledSpectrum.const]

theorem spectrum_mul_assoc (a b c : SampledSpectrum) :
    a * b * c = a * (b * c) := by
  simp [SampledSpectrum.mul_def, mul_assoc]

/-- In a medium with zero absorption and scattering coefficients the event
classification always lands on null scattering. -/
theorem vacuum_mode (ev : MediumEvent) (ha : ev.intr.sigma_a = SampledSpectrum.zero)
    (hs : ev.intr.sigma_s = SampledSpectrum.zero) (hu : 0 ≤ ev.um) :
    collisionMode ev = 2 := by
  simp only [collisionMode, sampleDiscrete3, ha, hs, SampledSpectrum.zero,
    SampledSpectrum.const]
  norm_num [hu, not_lt.2 hu]

/-- A null-scattering event multiplies `beta` and `pdfUni` by one common
spectral factor and continues. -/
theorem null_step_factor (depth maxDepth : ℕ) (ev : MediumEvent)
    (s0 : MediumCBState) (hmode : collisionMode ev = 2) :
    ∃ s₁ F, mediumEventStep depth maxDepth ev s0 = .ok (s₁, true) ∧
      s₁.beta = s0.beta * F ∧ s₁.pdfUni = s0.pdfUni * F ∧
      s₁.scattered = s0.scattered := by
  simp only [mediumEventStep, hmode]
  rw [if_neg (show ¬((2:ℕ) = 0) by decide), if_neg (show ¬((2:ℕ) = 1) by decide)]
  split
  · refine ⟨_, (ev.Tmaj * ev.intr.sigma_n) * SampledSpectrum.const invScaleBound,
      rfl, ?_, ?_, rfl⟩
    · simp only [scale_eq_mul_const, spectrum_mul_assoc]
    · simp only [scale_eq_mul_const, spectrum_mul_assoc]
  · exact ⟨_, ev.Tmaj * ev.intr.sigma_n, rfl, rfl, rfl, rfl⟩

/-- In a zero-extinction medium every traversal succeeds (never scatters,
never absorbs) and multiplies `beta` and `pdfUni` by one common spectral
factor. -/
theorem vacuum_run_factor (depth maxDepth : ℕ) (events : List MediumEvent)
    (TmajEnd : SampledSpectrum)
    (hvac : ∀ ev ∈ events, ev.intr.sigma_a = SampledSpectrum.zero ∧
            ev.intr.sigma_s = SampledSpectrum.zero ∧ 0 ≤ ev.um) :
    ∀ s0 : MediumCBState, ∃ s' M,
      runSampleTmaj depth maxDepth events TmajEnd s0 = .ok s' ∧
      s'.beta = s0.beta * M ∧ s'.pdfUni = s0.pdfUni * M ∧
      s'.scattered = s0.scattered := by
  induction events with
  | nil =>
    intro s0
    exact ⟨mediumNoIntrStep TmajEnd s0, TmajEnd, rfl, rfl, rfl, rfl⟩
  | cons ev rest ih =>
    intro s0
    have hev := hvac ev (List.mem_cons_self ev rest)
    have hrest : ∀ e ∈ rest, e.intr.sigma_a = SampledSpectrum.zero ∧
        e.intr.sigma_s = SampledSpectrum.zero ∧ 0 ≤ e.um :=
      fun e he => hvac e (List.mem_cons_of_mem ev he)
    have hmode := vacuum_mode ev hev.1 hev.2.1 hev.2.2
    obtain ⟨s₁, F, hstep, hb1, hu1, hsc1⟩ :=
      null_step_factor depth maxDepth ev s0 hmode
    obtain ⟨s', M, hrun, hb, hu', hsc⟩ := ih hrest s₁
    refine ⟨s', F * M, ?_, ?_, ?_, ?_⟩
    · simp only [runSampleTmaj, hstep, if_pos rfl]
      exact hrun
    · rw [hb, hb1, spectrum_mul_assoc]
    · rw [hu', hu1, spectrum_mul_assoc]
    · rw [hsc, hsc1]

/-- Concrete null event in a zero-extinction medium with a positive
majorant and half transmittance, used by the C8 counterexample. -/
def c8Event : MediumEvent :=
  ⟨SampledSpectrum.const (1 / 2),
   ⟨SampledSpectrum.zero, SampledSpectrum.zero, SampledSpectrum.one,
    SampledSpectrum.zero, PhaseHandle.hg 0⟩, 1 / 2⟩

theorem c8Event_mode : collisionMode c8Event = 2 := by
  norm_num [collisionMode, sampleDiscrete3, c8Event, SampledSpectrum.zero,
    SampledSpectrum.one, SampledSpectrum.const]

/-- Callback state after the C8 counterexample traversal: all three
accumulators halved. -/
def c8OutCB : MediumCBState :=
  ⟨SampledSpectrum.const (1 / 2), SampledSpectrum.const (1 / 2),
   SampledSpectrum.const (1 / 2), SampledSpectrum.zero, false, Option.none⟩

/-- Counterexample to C8 as stated: in a medium with
`sigma_a = sigma_s = 0` everywhere but a positive majorant
(`sigma_maj = 1`), a traversal with one null collision of majorant
transmittance `1/2` runs to the segment end yet changes `beta`, `pdfUni`
and `pdfNEE` (each is halved). -/
theorem c8_sigma_n : c8Event.intr.sigma_n = SampledSpectrum.one := by
  norm_num [c8Event, MediumInteraction.sigma_n, SampledSpectrum.sub_def,
    SampledSpectrum.clampZero, SampledSpectrum.zero, SampledSpectrum.one,
    SampledSpectrum.const, max_def]

theorem c8_step_eval :
    mediumEventStep 0 5 c8Event unitCBState = .ok (c8OutCB, true) := by
  simp only [mediumEventStep, c8Event_mode, c8_sigma_n]
  rw [if_neg (show ¬((2:ℕ) = 0) by decide), if_neg (show ¬((2:ℕ) = 1) by decide),
    if_neg (show ¬(0 < 5 ∧ c8Event.intr.emitted.nonzero = true) by
      simp [show c8Event.intr.emitted.nonzero = false from zero_nonzero]),
    if_neg (show ¬ ((unitCBState.beta * (c8Event.Tmaj * SampledSpectrum.one)).maxComponent >
          scaleBound ∨
        (unitCBState.pdfUni * (c8Event.Tmaj * SampledSpectrum.one)).maxComponent >
          scaleBound ∨
        (unitCBState.pdfNEE * (c8Event.Tmaj * c8Event.intr.sigma_maj)).maxComponent >
          scaleBound) by
      norm_num [c8Event, unitCBState, scaleBound, SampledSpectrum.one,
        SampledSpectrum.const, SampledSpectrum.mul_def,
        SampledSpectrum.maxComponent, max_def])]
  norm_num [c8Event, c8OutCB, unitCBState, SampledSpectrum.one,
    SampledSpectrum.zero, SampledSpectrum.const, SampledSpectrum.mul_def]

theorem vacuum_traversal_changes_state_counterexample :
    c8Event.intr.sigma_a = SampledSpectrum.zero ∧
    c8Event.intr.sigma_s = SampledSpectrum.zero ∧
    runSampleTmaj 0 5 [c8Event] SampledSpectrum.one unitCBState = .ok c8OutCB ∧
    c8OutCB.beta ≠ unitCBState.beta := by
  refine ⟨rfl, rfl, ?_, by
    norm_num [c8OutCB, unitCBState, SampledSpectrum.one, SampledSpectrum.const]⟩
  simp only [runSampleTmaj, c8_step_eval]
  norm_num [mediumNoIntrStep, c8OutCB, SampledSpectrum.mul_one_right]

/-- C8 amended: for a zero-extinction medium (`sigma_a = sigma_s = 0`
everywhere) the free-flight sampler never absorbs or scatters and
multiplies `beta` and `pdfUni` by one common spectral factor; the item's
`beta`, `pdfUni` and `pdfNEE` are unchanged exactly in the zero-majorant
case, where no collision occurs before the segment end and the remaining
majorant transmittance is the unit spectrum. -/
theorem vacuum_medium_traversal (depth maxDepth : ℕ) (events : List MediumEvent)
    (TmajEnd : SampledSpectrum) (s0 : MediumCBState)
    (hvac : ∀ ev ∈ events, ev.intr.sigma_a = SampledSpectrum.zero ∧
            ev.intr.sigma_s = SampledSpectrum.zero ∧ 0 ≤ ev.um) :
    (∃ s' M, runSampleTmaj depth maxDepth events TmajEnd s0 = .ok s' ∧
      s'.beta = s0.beta * M ∧ s'.pdfUni = s0.pdfUni * M ∧
      s'.scattered = s0.scattered) ∧
    runSampleTmaj depth maxDepth [] SampledSpectrum.one s0 = .ok s0 := by
  refine ⟨vacuum_run_factor depth maxDepth events TmajEnd hvac s0, ?_⟩
  simp only [runSampleTmaj, mediumNoIntrStep, SampledSpectrum.mul_one_right]

/-- Witness for the amended C8: the zero-majorant run leaves the unit
state unchanged. -/
theorem vacuum_medium_traversal_witness :
    runSampleTmaj 0 5 ([] : List MediumEvent) SampledSpectrum.one unitCBState =
      .ok unitCBState :=
  (vacuum_medium_traversal 0 5 [] SampledSpectrum.one unitCBState
    (by simp)).2

/-- C2: in the transmittance shadow resolver, a hit carrying a material
zeroes the accumulated `Ld` and stops the loop; otherwise an iteration
stops exactly when the trace missed, the (medium-updated) `Ld` is exactly
zero, or the spawned continuation direction is exactly zero; and the value
finally written for the item is the accumulated `Ld` divided by
`(pdfUni + pdfNEE).Average()`. -/
theorem shadow_tr_resolution (it : ShadowTraceIter) (s : ShadowState) :
    ((it.missed = false ∧ it.hitMaterial = true) →
      shadowTrStep it s = ({ s with Ld := SampledSpectrum.zero }, true)) ∧
    (¬(it.missed = false ∧ it.hitMaterial = true) →
      (shadowTrStep it s).2 =
        (it.missed || !(shadowTrStep it s).1.Ld.nonzero || it.spawnDirZero)) ∧
    (∀ (iters : List ShadowTraceIter) (sf : ShadowState),
      shadowTrRun iters s = some sf →
      shadowTrWritten iters s =
        some (sf.Ld.divScalar ((sf.pdfUni + sf.pdfNEE).average))) := by
  refine ⟨?_, ?_, ?_⟩
  · rintro ⟨h1, h2⟩
    simp [shadowTrStep, h1, h2]
  · intro h
    have hcond : (!it.missed && it.hitMaterial) = false := by
      cases hm : it.missed <;> cases hh : it.hitMaterial <;> simp_all
    simp only [shadowTrStep, hcond, Bool.false_eq_true, if_false]
    cases hm : it.missed
    · cases hLd : (if it.hasMedium then shadowMediumRun it.events s else s).Ld.nonzero
      · simp [hLd]
      · cases hsp : it.spawnDirZero <;> simp [hLd, hsp]
    · simp
  · intro iters sf h
    simp [shadowTrWritten, h]

/-- Concrete hit-material iteration and state for the C2 witness. -/
def c2Iter : ShadowTraceIter := ⟨false, true, false, [], false⟩

/-- Unit shadow accumulator state. -/
def unitShadowState : ShadowState :=
  ⟨SampledSpectrum.one, SampledSpectrum.one, SampledSpectrum.one⟩

/-- Witness for C2: a hit with a material zeroes `Ld` and stops. -/
theorem shadow_tr_resolution_witness :
    shadowTrStep c2Iter unitShadowState =
      ({ unitShadowState with Ld := SampledSpectrum.zero }, true) :=
  (shadow_tr_resolution c2Iter unitShadowState).1 ⟨rfl, rfl⟩

/-- Counterexample to C4 as stated: a closest hit with no current medium,
no bound material and an area-light emitter goes to the medium-transition
queue only (the `!material` early return comes before the area-light test),
so no hit-area-light push happens. -/
theorem emitter_without_material_counterexample :
    processClosestIntersection false false ⟨false, true, false⟩ =
      { CHOut.none with transitionPush := true } ∧
    (processClosestIntersection false false ⟨false, true, false⟩).hitAreaLightPush =
      false := by
  constructor
  · simp [processClosestIntersection, CHOut.none]
  · simp [processClosestIntersection, CHOut.none]

/-- C4 amended: for a regular (non-shadow) closest hit on a ray with no
current medium whose hit is an area-light emitter, the dispatcher pushes
to the hit-area-light queue exactly when a material is also bound; with no
material the hit is routed to the medium-transition queue instead. -/
theorem hit_area_light_requires_material (hit : SurfaceHit)
    (hal : hit.hasAreaLight = true) :
    (processClosestIntersection false false hit).hitAreaLightPush =
      hit.hasMaterial ∧
    (hit.hasMaterial = false →
      (processClosestIntersection false false hit).transitionPush = true) := by
  cases hmat : hit.hasMaterial <;>
    simp [processClosestIntersection, CHOut.none, hal, hmat]

/-- Witness for the amended C4: with a material bound, the emitter hit is
pushed to the hit-area-light queue. -/
theorem hit_area_light_requires_material_witness :
    (processClosestIntersection false false ⟨true, true, true⟩).hitAreaLightPush =
      (⟨true, true, true⟩ : SurfaceHit).hasMaterial :=
  (hit_area_light_requires_material ⟨true, true, true⟩ rfl).1

/-- C7: when a light is selected and its sample is valid with nonzero
radiance, the pushed shadow-ray item carries
`pdfNEE' = pdfUni * lightSelectionPdf * lightPdf`,
`pdfUni' = pdfUni * phasePdf` with `phasePdf` taken as 0 for a delta
light, and a shadow `tMax` of `1 - ShadowEpsilon`. -/
theorem scatter_direct_push (ms : MediumScatterInput) (lo : LightSampleOracle)
    (hl : lo.hasLight = true) (hv : lo.lsValid = true)
    (hL : lo.lsL.nonzero = true) :
    mediumScatterDirect ms lo =
      some ⟨1 - shadowEpsilon,
            (ms.beta.scale lo.phaseP) * lo.lsL,
            ms.pdfUni.scale (if lo.isDeltaLight then 0 else lo.phasePdf),
            ms.pdfUni.scale (lo.selectionPdf * lo.lsPdf)⟩ := by
  simp [mediumScatterDirect, hl, hv, hL, mul_comm]

/-- Concrete scatter input for the C7 and C6 witnesses. -/
def c7Input : MediumScatterInput :=
  ⟨SampledSpectrum.one, SampledSpectrum.one, 1, ⟨0⟩⟩

/-- Concrete light-sample oracle for the C7 witness. -/
def c7Light : LightSampleOracle :=
  ⟨true, 1 / 2, true, SampledSpectrum.one, 1 / 3, false, 1, 1 / 4⟩

/-- Witness for C7 at a concrete non-delta light sample. -/
theorem scatter_direct_push_witness :
    mediumScatterDirect c7Input c7Light =
      some ⟨1 - shadowEpsilon,
            (c7Input.beta.scale c7Light.phaseP) * c7Light.lsL,
            c7Input.pdfUni.scale
              (if c7Light.isDeltaLight then 0 else c7Light.phasePdf),
            c7Input.pdfUni.scale (c7Light.selectionPdf * c7Light.lsPdf)⟩ :=
  scatter_direct_push c7Input c7Light rfl rfl one_nonzero

/-- The quantity `beta * etaScale / pdfUni.Average()` the Russian-roulette
test inspects (media.cpp:290), after the phase-sample update. -/
def rrBeta (ms : MediumScatterInput) (ps : PhaseSampleOracle) : SampledSpectrum :=
  ((ms.beta.scale ps.p).scale ms.etaScale).divScalar
    ((ms.pdfUni.scale ps.pdf).average)

/-- C6: Russian roulette applies exactly when `depth > 1` and the max
spectral component of `beta * etaScale / pdfUni.Average()` is below 1; the
survival threshold is `q = 1 - that maximum`; the path is dropped when the
precomputed roulette sample falls below `q`, and a surviving path has
`pdfUni` and `pdfNEE` scaled by `1 - q` and is pushed into the
next-depth ray queue (parity `(depth+1) % 2`) with the specular-bounce
flag cleared and the any-non-specular-bounces flag set. -/
theorem scatter_indirect_roulette (depth : ℕ) (ms : MediumScatterInput)
    (ps : PhaseSampleOracle) (rrSample : ℚ) (hps : ps.valid = true) :
    (¬((rrBeta ms ps).maxComponent < 1 ∧ depth > 1) →
      mediumScatterIndirect depth ms ps rrSample =
        some ⟨ms.beta.scale ps.p, ms.pdfUni.scale ps.pdf, ms.pdfUni,
              false, true, (depth + 1) % 2⟩) ∧
    ((rrBeta ms ps).maxComponent < 1 ∧ depth > 1 →
      max 0 (1 - (rrBeta ms ps).maxComponent) =
        1 - (rrBeta ms ps).maxComponent ∧
      (rrSample < max 0 (1 - (rrBeta ms ps).maxComponent) →
        mediumScatterIndirect depth ms ps rrSample = Option.none) ∧
      (¬ rrSample < max 0 (1 - (rrBeta ms ps).maxComponent) →
        mediumScatterIndirect depth ms ps rrSample =
          some ⟨ms.beta.scale ps.p,
                (ms.pdfUni.scale ps.pdf).scale
                  (1 - max 0 (1 - (rrBeta ms ps).maxComponent)),
                ms.pdfUni.scale
                  (1 - max 0 (1 - (rrBeta ms ps).maxComponent)),
                false, true, (depth + 1) % 2⟩)) := by
  constructor
  · intro h
    simp only [mediumScatterIndirect, hps, Bool.not_true, Bool.false_eq_true,
      if_false]
    rw [if_neg (by simpa [rrBeta] using h)]
  · intro h
    refine ⟨max_eq_right (by linarith [h.1]), ?_, ?_⟩
    · intro hrr
      simp only [mediumScatterIndirect, hps, Bool.not_true, Bool.false_eq_true,
        if_false]
      rw [if_pos (by simpa [rrBeta] using h), if_pos (by simpa [rrBeta] using hrr)]
    · intro hrr
      simp only [mediumScatterIndirect, hps, Bool.not_true, Bool.false_eq_true,
        if_false]
      rw [if_pos (by simpa [rrBeta] using h), if_neg (by simpa [rrBeta] using hrr),
        rrBeta]

/-- Concrete phase sample for the C6 witness. -/
def c6Phase : PhaseSampleOracle := ⟨true, 1 / 2, 1⟩

theorem c6_rrBeta_max : (rrBeta c7Input c6Phase).maxComponent = 1 / 2 := by
  norm_num [rrBeta, c7Input, c6Phase, SampledSpectrum.one, SampledSpectrum.const,
    SampledSpectrum.scale, SampledSpectrum.divScalar, SampledSpectrum.average,
    SampledSpectrum.maxComponent, max_def]

/-- Witness for C6: at depth 2 with `rrBeta` max component `1/2`, a
roulette sample of 0 drops the path. -/
theorem scatter_indirect_roulette_witness :
    mediumScatterIndirect 2 c7Input c6Phase 0 = Option.none :=
  ((scatter_indirect_roulette 2 c7Input c6Phase 0 rfl).2
    (by rw [c6_rrBeta_max]; norm_num)).2.1
    (by rw [c6_rrBeta_max]; norm_num)

/-- A medium-sample work item agreeing with `c3Item` on `tMax` and `ray.d`
but carrying a different throughput, for the C10 counterexample. -/
def c10ItemB : MediumSampleWorkItem :=
  { c3Item with beta := SampledSpectrum.const 2 }

/-- Counterexample to C10 as stated: two medium-sample work items agreeing
on `tMax` and `ray.d` (hence receiving identical random sequences) but
differing in throughput produce different results from the free-flight
sampler, so agreement on the hashed fields alone does not imply identical
spectral updates. -/
theorem rng_fields_not_sufficient_counterexample :
    c10ItemB.tMax = c3Item.tMax ∧ c10ItemB.rayD = c3Item.rayD ∧
    mediumSampleItemRun 0 5 c10ItemB [] SampledSpectrum.one true
        SampledSpectrum.zero ≠
      mediumSampleItemRun 0 5 c3Item [] SampledSpectrum.one true
        SampledSpectrum.zero := by
  refine ⟨rfl, rfl, ?_⟩
  norm_num [mediumSampleItemRun, runSampleTmaj, mediumNoIntrStep,
    mediumSampleRoute, pixelAdd, c10ItemB, c3Item, SampledSpectrum.mul_def,
    SampledSpectrum.one, SampledSpectrum.zero, SampledSpectrum.const,
    SampledSpectrum.nonzero, SampledSpectrum.mk.injEq]

/-- The fields of a medium-sample work item the sampler kernel actually
reads (everything except the ray origin and direction, which enter only
through the RNG seed and the oracle events). -/
def mediumSamplerInputs (item : MediumSampleWorkItem) :
    Option ℚ × SampledSpectrum × SampledSpectrum × SampledSpectrum ×
      Bool × Bool × Bool :=
  (item.tMax, item.beta, item.pdfUni, item.pdfNEE, item.hasMaterial,
   item.hasAreaLight, item.basicMaterial)

/-- C10 amended: the free-flight sampler's RNG seed is exactly
`(Hash(tMax), Hash(ray.d))` and the shadow resolver's is exactly
`(Hash(ray.o), Hash(ray.d))`, so items agreeing on those fields receive
identical seeds and hence identical random sequences (for any stream
function of the seed); and the sampler is deterministic: items agreeing on
all sampler-read fields produce identical results under the same oracle. -/
theorem rng_seed_determinism (hashT : Option ℚ → ℕ) (hashV : Vec3 → ℕ)
    (i1 i2 : MediumSampleWorkItem) (ht : i1.tMax = i2.tMax)
    (hd : i1.rayD = i2.rayD) :
    mediumRngSeed hashT hashV i1 = mediumRngSeed hashT hashV i2 ∧
    (∀ (stream : ℕ × ℕ → ℕ → ℚ) (n : ℕ),
      stream (mediumRngSeed hashT hashV i1) n =
        stream (mediumRngSeed hashT hashV i2) n) ∧
    (∀ (hv : Vec3 → ℕ) (s1 s2 : ShadowTrInputRay), s1.rayO = s2.rayO →
      s1.rayD = s2.rayD → shadowRngSeed hv s1 = shadowRngSeed hv s2) ∧
    (mediumSamplerInputs i1 = mediumSamplerInputs i2 →
      ∀ (depth maxDepth : ℕ) (events : List MediumEvent)
        (TmajEnd pixelBefore : SampledSpectrum) (esc : Bool),
        mediumSampleItemRun depth maxDepth i1 events TmajEnd esc pixelBefore =
          mediumSampleItemRun depth maxDepth i2 events TmajEnd esc pixelBefore) := by
  have hseed : mediumRngSeed hashT hashV i1 = mediumRngSeed hashT hashV i2 := by
    simp [mediumRngSeed, ht, hd]
  refine ⟨hseed, fun stream n => by rw [hseed], ?_, ?_⟩
  · intro hv s1 s2 h1 h2
    simp [shadowRngSeed, h1, h2]
  · intro hin depth maxDepth events TmajEnd pixelBefore esc
    cases i1
    cases i2
    simp only [mediumSamplerInputs, Prod.mk.injEq] at hin
    obtain ⟨e1, e2, e3, e4, e5, e6, e7⟩ := hin
    subst e1; subst e2; subst e3; subst e4; subst e5; subst e6; subst e7
    simp [mediumSampleItemRun, mediumSampleRoute]

/-- Witness for the amended C10: two concrete items agreeing on `tMax` and
`ray.d` receive the same RNG seed. -/
theorem rng_seed_determinism_witness :
    mediumRngSeed (fun _ => 0) (fun _ => 0) c3Item =
      mediumRngSeed (fun _ => 0) (fun _ => 0) c10ItemB :=
  (rng_seed_determinism (fun _ => 0) (fun _ => 0) c3Item c10ItemB rfl rfl).1

end PbrtGpu
